import Mathlib

/-!
Verification of the pline `easy` module: the configuration resolver
(`PipelineOptions`) and the pipeline builder (`EasyPipeline`), shallowly
embedded from `src/pline/easy.py`.  The process environment is modelled as a
function from variable names to optional values; Python object references
into the pipeline registry are modelled as object ids, which `_get_object`
resolves to the first record carrying that id, matching the reference
semantics of the source for all reachable (id-unique) registries.
-/

namespace Pline

/-- The process environment (`os.environ`), as a partial map. -/
abbrev Env := String → Option String

/-- The Python exceptions raised by the embedded code. -/
inductive PyErr
  | keyError (k : String)
  | valueError (msg : String)
  | notImplementedError
  deriving DecidableEq

/-- Python dict assignment `d[k] = v` on an association list: replace the
value at existing occurrences of `k`, otherwise append the new pair. -/
def dictSet {α : Type} (l : List (String × α)) (k : String) (v : α) : List (String × α) :=
  if l.any (fun p => p.1 == k) then
    l.map (fun p => if p.1 == k then (k, v) else p)
  else
    l ++ [(k, v)]

/-- Python dict lookup `d.get(k)` on an association list. -/
def dictGet? {α : Type} (l : List (String × α)) (k : String) : Option α :=
  (l.find? (fun p => p.1 == k)).map (fun p => p.2)

/-- Configuration resolver state (`PipelineOptions`): the explicit in-memory
table `items`, the environment-variable name prefix, and the environment it
reads through to.  Python reads the global mutable `os.environ`; an
environment change is modelled by replacing the `env` field. -/
structure PipelineOptions where
  envPfx : String
  items : List (String × String)
  env : Env

/-- `os.environ.get(pfx + key, default)`, shared between `_getenv` and the
defaults-seeding loop of the constructor. -/
def getenvRaw (pfx : String) (env : Env) (key : String) (default : Option String) :
    Option String :=
  match env (pfx ++ key) with
  | some v => some v
  | none => default

/-- `PipelineOptions._getenv`. -/
def PipelineOptions._getenv (o : PipelineOptions) (key : String) (default : Option String) :
    Option String :=
  getenvRaw o.envPfx o.env key default

/-- One defaults-seeding step of `PipelineOptions.__init__`:
`self._items.setdefault(k, self._getenv(k, v))` — insert only when the key is
absent, with the environment consulted before the literal default. -/
def seedStep (pfx : String) (env : Env) (acc : List (String × String))
    (p : String × String) : List (String × String) :=
  if (dictGet? acc p.1).isSome then acc
  else acc ++ [(p.1, match getenvRaw pfx env p.1 (some p.2) with
                     | some v => v
                     | none => p.2)]

/-- `PipelineOptions.__init__`: store the prefix (with `_` appended when the
argument is truthy), copy the explicit options, then seed each absent
defaults key with `setdefault(k, self._getenv(k, v))`. -/
def PipelineOptions.init (options defaults : List (String × String))
    (envPfxArg : Option String) (env : Env) : PipelineOptions :=
  let pfx : String :=
    match envPfxArg with
    | some s => if s = "" then "" else s ++ "_"
    | none => ""
  let items0 := options.foldl (fun acc p => dictSet acc p.1 p.2) []
  let items1 := defaults.foldl (seedStep pfx env) items0
  { envPfx := pfx, items := items1, env := env }

/-- `PipelineOptions.__getitem__`: explicit table first, then the prefixed
environment variable, else `KeyError`. -/
def PipelineOptions.getitem (o : PipelineOptions) (key : String) : Except PyErr String :=
  match dictGet? o.items key with
  | some v => .ok v
  | none =>
    match o._getenv key none with
    | some v => .ok v
    | none => .error (.keyError key)

/-- `PipelineOptions.__setitem__`: writes always go to the explicit table. -/
def PipelineOptions.setitem (o : PipelineOptions) (key value : String) : PipelineOptions :=
  { o with items := dictSet o.items key value }

/-- `PipelineOptions.__delitem__`: permanently unsupported. -/
def PipelineOptions.delitem (o : PipelineOptions) (key : String) :
    Except PyErr PipelineOptions :=
  .error .notImplementedError

/-- `PipelineOptions.__iter__`: permanently unsupported. -/
def PipelineOptions.iterKeys (o : PipelineOptions) : Except PyErr (List String) :=
  .error .notImplementedError

/-- `PipelineOptions.__len__`: permanently unsupported. -/
def PipelineOptions.len (o : PipelineOptions) : Except PyErr Nat :=
  .error .notImplementedError

/-- `key in options`: `collections.MutableMapping` derives `__contains__`
from `__getitem__`, catching `KeyError`. -/
def PipelineOptions.contains (o : PipelineOptions) (key : String) : Bool :=
  match o.getitem key with
  | .ok _ => true
  | .error _ => false

/-- The record classes used by the builder (`base.DataPipelineObject`,
`base.Schedule`, `activities.ShellCommandActivity`, `resources.Ec2Resource`,
`actions.SnsAlarm`). -/
inductive Kind
  | dataPipelineObject
  | schedule
  | shellCommandActivity
  | ec2Resource
  | snsAlarm
  deriving DecidableEq

/-- Field values carried by pipeline records: strings, integers, keyword
constants, and references to other pipeline records (modelled by id). -/
inductive Value
  | str (s : String)
  | int (n : Nat)
  | kw (s : String)
  | ref (id : String)
  deriving DecidableEq

/-- Modelled from the spec: the record constructors of the object model
(`base`, `activities`, `resources`, `actions`, not under `src/`) accept an id
plus arbitrary named fields; a record is its id, its kind and its fields. -/
structure PipelineObject where
  id : String
  kind : Kind
  fields : List (String × Value)
  deriving DecidableEq

/-- Modelled from the spec: the `keywords` module (not under `src/`) supplies
opaque keyword constants; `scheduleType` has distinct on-demand and cron
values. -/
def scheduleTypeOndemand : Value := .kw "ondemand"

/-- Modelled from the spec: the cron `scheduleType` keyword. -/
def scheduleTypeCron : Value := .kw "cron"

/-- Modelled from the spec: the cascade `failureAndRerunMode` keyword. -/
def failureAndRerunModeCascade : Value := .kw "cascade"

/-- Modelled from the spec: the terminate `actionOnTaskFailure` keyword. -/
def actionOnTaskFailureTerminate : Value := .kw "terminate"

/-- Modelled from the spec: the retry-all `actionOnResourceFailure` keyword. -/
def actionOnResourceFailureRetryAll : Value := .kw "retryall"

/-- Pipeline builder state (`EasyPipeline`).  The `objects` field is the
registry collection owned by the `pipeline.Pipeline` base class, modelled
from the spec as an ordered collection of records, empty before the builder
body runs. -/
structure EasyPipeline where
  name : String
  uniqueId : String
  desc : Option String
  regionName : String
  options : PipelineOptions
  objects : List PipelineObject

/-- `EasyPipeline._get_object`: first record in the collection with the
given id, else none. -/
def EasyPipeline._get_object (p : EasyPipeline) (id : String) : Option PipelineObject :=
  p.objects.find? (fun o => o.id == id)

/-- Modelled from the spec: the registry operation `add` appends the record to the
object collection. -/
def EasyPipeline.add (p : EasyPipeline) (obj : PipelineObject) : EasyPipeline :=
  { p with objects := p.objects ++ [obj] }

/-- `EasyPipeline._ensure_object`: get by id, creating (and registering) the
record when absent.  The Python method returns an object reference; here the
reference is the id, resolved by `_get_object`.  The record argument is the
one `cls(id=id, **kwargs)` would build; its keyword arguments are evaluated
at the call site in Python, so the accessors below compute them before
calling this. -/
def EasyPipeline._ensure_object (p : EasyPipeline) (id : String) (obj : PipelineObject) :
    EasyPipeline × String :=
  match p._get_object id with
  | some _ => (p, id)
  | none => (p.add obj, id)

/-- Attribute assignment `o.field = v` on a record. -/
def PipelineObject.setField (o : PipelineObject) (k : String) (v : Value) : PipelineObject :=
  { o with fields := dictSet o.fields k v }

/-- Mutation through an object reference: rewrite the first record carrying
the referenced id. -/
def updateFirstList : List PipelineObject → String → (PipelineObject → PipelineObject) →
    List PipelineObject
  | [], _, _ => []
  | o :: rest, id, f =>
    if o.id == id then f o :: rest else o :: updateFirstList rest id f

/-- Mutation through an object reference, at the pipeline level. -/
def EasyPipeline.updFirst (p : EasyPipeline) (id : String)
    (f : PipelineObject → PipelineObject) : EasyPipeline :=
  { p with objects := updateFirstList p.objects id f }

/-- The record built by `get_defaults`. -/
def defaultObject (logUri role resourceRole : String) : PipelineObject :=
  { id := "Default", kind := .dataPipelineObject,
    fields := [("name", .str "Default"),
               ("scheduleType", scheduleTypeOndemand),
               ("failureAndRerunMode", failureAndRerunModeCascade),
               ("pipelineLogUri", .str logUri),
               ("role", .str role),
               ("resourceRole", .str resourceRole)] }

/-- `EasyPipeline.get_defaults`: get or create the `Default` record; its
option lookups (evaluated before `_ensure_object` runs, as Python evaluates
keyword arguments at the call site) can raise `KeyError`. -/
def EasyPipeline.get_defaults (p : EasyPipeline) : Except PyErr (EasyPipeline × String) :=
  match p.options.getitem "LOG_URI" with
  | .error e => .error e
  | .ok logUri =>
    match p.options.getitem "PIPELINE_ROLE" with
    | .error e => .error e
    | .ok role =>
      match p.options.getitem "PIPELINE_RESOURCE_ROLE" with
      | .error e => .error e
      | .ok resourceRole =>
        .ok (p._ensure_object "Default" (defaultObject logUri role resourceRole))

/-- The record built by `get_shell_command_activity`. -/
def shellObject (id : String) : PipelineObject :=
  { id := id, kind := .shellCommandActivity,
    fields := [("name", .str id), ("maximumRetries", .int 0)] }

/-- `EasyPipeline.get_shell_command_activity`. -/
def EasyPipeline.get_shell_command_activity (p : EasyPipeline) (id : String) :
    EasyPipeline × String :=
  p._ensure_object id (shellObject id)

/-- The record built by `get_schedule`. -/
def scheduleObject (id : String) : PipelineObject :=
  { id := id, kind := .schedule, fields := [("name", .str id)] }

/-- `EasyPipeline.get_schedule`: get or create the schedule, then rewire the
`scheduleType` and `schedule` fields of the `Default` record at it. -/
def EasyPipeline.get_schedule (p : EasyPipeline) (id : String) :
    Except PyErr (EasyPipeline × String) :=
  let ensured := p._ensure_object id (scheduleObject id)
  match ensured.1.get_defaults with
  | .error e => .error e
  | .ok got =>
    let p3 := got.1.updFirst got.2 (fun o => o.setField "scheduleType" scheduleTypeCron)
    let p4 := p3.updFirst got.2 (fun o => o.setField "schedule" (.ref ensured.2))
    .ok (p4, ensured.2)

/-- The record built by `get_ec2_resource`. -/
def ec2Object (id ami keyPair subnet securityGroup : String) : PipelineObject :=
  { id := id, kind := .ec2Resource,
    fields := [("name", .str id),
               ("actionOnTaskFailure", actionOnTaskFailureTerminate),
               ("actionOnResourceFailure", actionOnResourceFailureRetryAll),
               ("maximumRetries", .int 1),
               ("terminateAfter", .str "1 hours"),
               ("imageId", .str ami),
               ("keyPair", .str keyPair),
               ("subnetId", .str subnet),
               ("securityGroupIds", .str securityGroup)] }

/-- `EasyPipeline.get_ec2_resource`. -/
def EasyPipeline.get_ec2_resource (p : EasyPipeline) (id : String) :
    Except PyErr (EasyPipeline × String) :=
  match p.options.getitem "EC2_AMI" with
  | .error e => .error e
  | .ok ami =>
    match p.options.getitem "EC2_KEYPAIR" with
    | .error e => .error e
    | .ok keyPair =>
      match p.options.getitem "EC2_SUBNET" with
      | .error e => .error e
      | .ok subnet =>
        match p.options.getitem "EC2_SECURITY_GROUP" with
        | .error e => .error e
        | .ok securityGroup =>
          .ok (p._ensure_object id (ec2Object id ami keyPair subnet securityGroup))

/-- The record built by `get_sns_alarm`. -/
def snsAlarmObject (id role : String) : PipelineObject :=
  { id := id, kind := .snsAlarm,
    fields := [("name", .str id), ("role", .str role)] }

/-- `EasyPipeline.get_sns_alarm`. -/
def EasyPipeline.get_sns_alarm (p : EasyPipeline) (id : String) :
    Except PyErr (EasyPipeline × String) :=
  match p.options.getitem "PIPELINE_ROLE" with
  | .error e => .error e
  | .ok role => .ok (p._ensure_object id (snsAlarmObject id role))

/-- The `date_fmt` literal of `get_sns_failure_handler` (braces and quotes
written with escape codes; they are opaque text for the remote engine). -/
def failureDateFmt : String :=
  "#\x7bformat(node.@scheduledStartTime,\x27YYYY-MM-dd\x27)\x7d"

/-- The `msg_body` literal of `get_sns_failure_handler` after its `.format`
call substitutes the pipeline name and region. -/
def failureMsgBody (name region : String) : String :=
  "Pipeline: " ++ name ++ "\nStatus: #\x7bnode.@status\x7d\nScheduled Time: #\x7bnode.@scheduledStartTime\x7d\n\nPipeline dashboard:\nhttps://console.aws.amazon.com/datapipeline/home?region=" ++ region ++ "#ExecutionDetailsPlace:pipelineId=#\x7b@pipelineId\x7d&show=latest\n        "

/-- The record built by `get_sns_failure_handler`. -/
def snsFailureObject (id role name region : String) : PipelineObject :=
  { id := id, kind := .snsAlarm,
    fields := [("name", .str id), ("role", .str role),
               ("subject", .str (name ++ " FAILED on " ++ failureDateFmt)),
               ("message", .str (failureMsgBody name region))] }

/-- `EasyPipeline.get_sns_failure_handler`. -/
def EasyPipeline.get_sns_failure_handler (p : EasyPipeline) (id : String) :
    Except PyErr (EasyPipeline × String) :=
  match p.options.getitem "PIPELINE_ROLE" with
  | .error e => .error e
  | .ok role => .ok (p._ensure_object id (snsFailureObject id role p.name p.regionName))

/-- `EasyPipeline.REQUIRED_OPTIONS`. -/
def REQUIRED_OPTIONS : List String :=
  ["LOG_URI", "PIPELINE_ROLE", "PIPELINE_RESOURCE_ROLE", "EC2_AMI", "EC2_KEYPAIR",
   "EC2_SUBNET", "EC2_SECURITY_GROUP"]

/-- A single-quote character, written by code point. -/
def squote : String := String.singleton (Char.ofNat 39)

/-- Python `repr` of a list of strings, as interpolated by
`"... {!r}".format(missing_opts)`. -/
def quoteJoin : List String → String
  | [] => ""
  | [s] => squote ++ s ++ squote
  | s :: t :: rest => squote ++ s ++ squote ++ ", " ++ quoteJoin (t :: rest)

/-- Python `repr` of a list of strings, with the surrounding brackets. -/
def pyReprList (l : List String) : String := "[" ++ quoteJoin l ++ "]"

/-- The `ValueError` message raised for missing required options. -/
def requiredErrMsg (missing : List String) : String :=
  "The following required options are not set: " ++ pyReprList missing

/-- `str.format` restricted to the two keyword substitutions the builder
supplies (`region` and `pipeline_name`), over character lists with explicit
fuel (one unit per character of the subject). -/
def replaceFuel (fuel : Nat) (s pat rep : List Char) : List Char :=
  match fuel with
  | 0 => s
  | fuel' + 1 =>
    match s with
    | [] => []
    | c :: rest =>
      if pat ≠ [] ∧ pat.isPrefixOf (c :: rest) then
        rep ++ replaceFuel fuel' ((c :: rest).drop pat.length) pat rep
      else
        c :: replaceFuel fuel' rest pat rep

/-- Replace every occurrence of `pat` in `s` by `rep`. -/
def replaceAll (s pat rep : String) : String :=
  { data := replaceFuel s.data.length s.data pat.data rep.data }

/-- `template.format(region=region, pipeline_name=name)` as used on line 89
of the source: substitute the two placeholders. -/
def formatTemplate (template region pipelineName : String) : String :=
  replaceAll (replaceAll template "\x7bregion\x7d" region) "\x7bpipeline_name\x7d" pipelineName

/-- Lines 88-89 of `EasyPipeline.__init__`: synthesize `LOG_URI` from
`LOG_URI_TEMPLATE` when the former is absent and the latter present. -/
def synthLogUri (options : PipelineOptions) (name region : String) : PipelineOptions :=
  if !(options.contains "LOG_URI") && options.contains "LOG_URI_TEMPLATE" then
    match options.getitem "LOG_URI_TEMPLATE" with
    | .ok t => options.setitem "LOG_URI" (formatTemplate t region name)
    | .error _ => options
  else options

/-- Line 91 of `EasyPipeline.__init__`: the required options that do not
resolve. -/
def missingOptions (options : PipelineOptions) : List String :=
  REQUIRED_OPTIONS.filter (fun o => !(options.contains o))

/-- `EasyPipeline.__init__`: attach the options, synthesize `LOG_URI` if
needed, validate the required options (raising `ValueError` naming all the
missing ones), then eagerly create the `Default` record.  The base-class
initialization (`pipeline.Pipeline.__init__`, not under `src/`) is modelled
from the spec: it stores name, unique id, description and region and leaves
the object collection empty. -/
def EasyPipeline.init (name uniqueId : String) (options : PipelineOptions)
    (desc : Option String) (region : String) : Except PyErr EasyPipeline :=
  let opts1 := synthLogUri options name region
  let missing := missingOptions opts1
  if missing = [] then
    let p0 : EasyPipeline :=
      { name := name, uniqueId := uniqueId, desc := desc, regionName := region,
        options := opts1, objects := [] }
    match p0.get_defaults with
    | .error e => .error e
    | .ok got => .ok got.1
  else
    .error (.valueError (requiredErrMsg missing))

/-- All seven required options resolve in the resolver of the pipeline. -/
def EasyPipeline.requiredOk (p : EasyPipeline) : Bool :=
  REQUIRED_OPTIONS.all (fun k => p.options.contains k)

/-- Count of registry records carrying the id `Default`. -/
def countDefault (p : EasyPipeline) : Nat :=
  p.objects.countP (fun o => o.id == "Default")

/-- Frame property of an accessor call: every pre-existing registry record
is left in place unchanged; at most the freshly created record (carrying the
requested id) is appended after them. -/
def appendOnly (p q : EasyPipeline) (id : String) : Prop :=
  ∃ tail, q.objects = p.objects ++ tail
    ∧ (tail = [] ∨ ∃ o, tail = [o] ∧ o.id = id)

/-! ### Concrete states used to evaluate the theorems -/

/-- A resolver holding all seven required options explicitly, with an empty
environment. -/
def wOpts : PipelineOptions :=
  { envPfx := "", env := fun _ => none,
    items := [("LOG_URI", "lu"), ("PIPELINE_ROLE", "ro"), ("PIPELINE_RESOURCE_ROLE", "rr"),
              ("EC2_AMI", "am"), ("EC2_KEYPAIR", "kp"), ("EC2_SUBNET", "sn"),
              ("EC2_SECURITY_GROUP", "sg")] }

/-- The pipeline produced by a successful construction over `wOpts`. -/
def wP : EasyPipeline :=
  { name := "n", uniqueId := "u", desc := none, regionName := "reg",
    options := wOpts, objects := [defaultObject "lu" "ro" "rr"] }

/-- `wP` after `get_shell_command_activity "A"`: the id `A` is bound to a
ShellCommand Activity record. -/
def sShellP : EasyPipeline := (wP.get_shell_command_activity "A").1

/-- The `Default` record of `sShellP` after `get_schedule "A"` rewires its
schedule fields at the id `A`. -/
def c1MutDefault : PipelineObject :=
  { id := "Default", kind := .dataPipelineObject,
    fields := [("name", .str "Default"),
               ("scheduleType", scheduleTypeCron),
               ("failureAndRerunMode", failureAndRerunModeCascade),
               ("pipelineLogUri", .str "lu"),
               ("role", .str "ro"),
               ("resourceRole", .str "rr"),
               ("schedule", .ref "A")] }

/-- The pipeline state after `sShellP.get_schedule "A"`. -/
def c1ResultP : EasyPipeline :=
  { name := "n", uniqueId := "u", desc := none, regionName := "reg",
    options := wOpts, objects := [c1MutDefault, shellObject "A"] }

/-- `wP` after `get_ec2_resource "A"` appends the new resource record. -/
def wPe : EasyPipeline :=
  { name := "n", uniqueId := "u", desc := none, regionName := "reg",
    options := wOpts,
    objects := [defaultObject "lu" "ro" "rr", ec2Object "A" "am" "kp" "sn" "sg"] }

/-- An environment defining exactly the prefixed variable `PIPELINE_X`. -/
def wEnvX : Env := fun k => if k = "PIPELINE_X" then some "from_env" else none

/-- A resolver holding only five of the seven required options. -/
def wOptsMissing : PipelineOptions :=
  { envPfx := "", env := fun _ => none,
    items := [("LOG_URI", "lu"), ("PIPELINE_ROLE", "ro"), ("PIPELINE_RESOURCE_ROLE", "rr"),
              ("EC2_AMI", "am"), ("EC2_KEYPAIR", "kp")] }

/-- A resolver holding a log-URI template but no `LOG_URI`, plus the other
six required options. -/
def wOptsTmpl : PipelineOptions :=
  { envPfx := "", env := fun _ => none,
    items := [("LOG_URI_TEMPLATE", "\x7bregion\x7d-\x7bpipeline_name\x7d"),
              ("PIPELINE_ROLE", "ro"), ("PIPELINE_RESOURCE_ROLE", "rr"),
              ("EC2_AMI", "am"), ("EC2_KEYPAIR", "kp"), ("EC2_SUBNET", "sn"),
              ("EC2_SECURITY_GROUP", "sg")] }

/-! ### Association-list lemmas -/

theorem dictGet?_nil {α : Type} (k : String) : dictGet? ([] : List (String × α)) k = none := rfl

theorem dictGet?_dictSet_self {α : Type} (l : List (String × α)) (k : String) (v : α) :
    dictGet? (dictSet l k v) k = some v := by
  unfold dictSet
  by_cases h : l.any (fun p => p.1 == k) = true
  · rw [if_pos h]
    unfold dictGet?
    induction l with
    | nil => simp at h
    | cons x t ih =>
      by_cases hx : x.1 == k
      · simp only [List.map_cons, if_pos hx]
        rw [List.find?_cons_of_pos _ (by simp)]
        rfl
      · simp only [List.map_cons, if_neg hx]
        rw [List.find?_cons_of_neg _ (by simpa using hx)]
        apply ih
        simp only [List.any_cons, Bool.or_eq_true] at h
        rcases h with h | h
        · exact absurd h hx
        · exact h
  · rw [if_neg h]
    unfold dictGet?
    rw [List.find?_append]
    have hl : l.find? (fun p => p.1 == k) = none := by
      rw [List.find?_eq_none]
      intro x hx
      exact fun hc => h (List.any_eq_true.mpr ⟨x, hx, hc⟩)
    rw [hl]
    simp [List.find?]

theorem find?_map_dictSet_ne {α : Type} (t : List (String × α)) (k k' : String) (v : α)
    (h : k' ≠ k) :
    List.find? (fun p => p.1 == k') (t.map (fun p => if p.1 == k then (k, v) else p))
      = List.find? (fun p => p.1 == k') t := by
  induction t with
  | nil => rfl
  | cons x t ih =>
    by_cases hx : x.1 == k
    · simp only [List.map_cons, if_pos hx]
      have hxk : x.1 = k := by simpa using hx
      have hkv : (((k, v) : String × α).1 == k') = false :=
        beq_eq_false_iff_ne.mpr (Ne.symm h)
      have hxne : (x.1 == k') = false := by
        rw [hxk]
        exact beq_eq_false_iff_ne.mpr (Ne.symm h)
      simp only [List.find?_cons, hkv, hxne]
      exact ih
    · simp only [List.map_cons, if_neg hx]
      rcases Bool.eq_false_or_eq_true (x.1 == k') with hx' | hx'
      · simp only [List.find?_cons, hx']
      · simp only [List.find?_cons, hx']
        exact ih

theorem dictGet?_dictSet_ne {α : Type} (l : List (String × α)) (k k' : String) (v : α)
    (h : k' ≠ k) : dictGet? (dictSet l k v) k' = dictGet? l k' := by
  unfold dictSet
  by_cases hany : l.any (fun p => p.1 == k) = true
  · rw [if_pos hany]
    unfold dictGet?
    rw [find?_map_dictSet_ne l k k' v h]
  · rw [if_neg hany]
    unfold dictGet?
    rw [List.find?_append]
    have hsing : List.find? (fun p => p.1 == k') [(k, v)] = none := by
      rw [List.find?_eq_none]
      intro x hx
      simp only [List.mem_singleton] at hx
      rw [hx]
      simp only [beq_iff_eq]
      exact Ne.symm h
    rw [hsing, Option.or_none]

theorem dictSet_any_self {α : Type} (l : List (String × α)) (k : String) (v : α) :
    (dictSet l k v).any (fun p => p.1 == k) = true := by
  unfold dictSet
  by_cases h : l.any (fun p => p.1 == k) = true
  · rw [if_pos h]
    rcases List.any_eq_true.mp h with ⟨x, hx, hpx⟩
    refine List.any_eq_true.mpr ⟨(k, v), ?_, by simp⟩
    refine List.mem_map.mpr ⟨x, hx, ?_⟩
    rw [if_pos hpx]
  · rw [if_neg h]
    refine List.any_eq_true.mpr ⟨(k, v), by simp, by simp⟩

theorem mem_dictSet_value {α : Type} {l : List (String × α)} {k : String} {v : α}
    {x : String × α} (hx : x ∈ dictSet l k v) (hk : x.1 = k) : x.2 = v := by
  unfold dictSet at hx
  by_cases h : l.any (fun p => p.1 == k) = true
  · rw [if_pos h] at hx
    rcases List.mem_map.mp hx with ⟨y, _, hy⟩
    by_cases hyk : y.1 == k
    · rw [if_pos hyk] at hy
      rw [← hy]
    · rw [if_neg hyk] at hy
      exact absurd (by simp [hy, hk]) hyk
  · rw [if_neg h] at hx
    rcases List.mem_append.mp hx with hx | hx
    · exact absurd (List.any_eq_true.mpr ⟨x, hx, by simp [hk]⟩) h
    · simp only [List.mem_singleton] at hx
      rw [hx]

theorem mem_dictSet_ne {α : Type} {l : List (String × α)} {k : String} {v : α}
    {x : String × α} (hx : x ∈ dictSet l k v) (hk : x.1 ≠ k) : x ∈ l := by
  unfold dictSet at hx
  by_cases h : l.any (fun p => p.1 == k) = true
  · rw [if_pos h] at hx
    rcases List.mem_map.mp hx with ⟨y, hyl, hy⟩
    by_cases hyk : y.1 == k
    · rw [if_pos hyk] at hy
      exact absurd (by simp [← hy]) hk
    · rw [if_neg hyk] at hy
      exact hy ▸ hyl
  · rw [if_neg h] at hx
    rcases List.mem_append.mp hx with hx | hx
    · exact hx
    · simp only [List.mem_singleton] at hx
      exact absurd (by rw [hx]) hk

theorem mem_dictSet_of_ne {α : Type} {l : List (String × α)} {k' : String} {v' : α}
    {x : String × α} (hx : x ∈ l) (hk : x.1 ≠ k') : x ∈ dictSet l k' v' := by
  unfold dictSet
  by_cases h : l.any (fun p => p.1 == k') = true
  · rw [if_pos h]
    refine List.mem_map.mpr ⟨x, hx, ?_⟩
    rw [if_neg (by simpa using hk)]
  · rw [if_neg h]
    exact List.mem_append.mpr (Or.inl hx)

theorem dictSet_self {α : Type} {l : List (String × α)} {k : String} {v : α}
    (h1 : l.any (fun p => p.1 == k) = true)
    (h2 : ∀ x ∈ l, x.1 = k → x.2 = v) : dictSet l k v = l := by
  unfold dictSet
  rw [if_pos h1]
  have : ∀ x ∈ l, (if x.1 == k then (k, v) else x) = x := by
    intro x hx
    by_cases hxk : x.1 == k
    · rw [if_pos hxk]
      have h1' : x.1 = k := by simpa using hxk
      have h2' : x.2 = v := h2 x hx h1'
      rw [← h1', ← h2']
    · rw [if_neg hxk]
  rw [List.map_congr_left this]
  simp

/-! ### Registry lemmas -/

theorem length_updateFirstList (l : List PipelineObject) (id : String)
    (f : PipelineObject → PipelineObject) :
    (updateFirstList l id f).length = l.length := by
  induction l with
  | nil => rfl
  | cons o t ih =>
    simp only [updateFirstList]
    by_cases ho : (o.id == id) = true
    · rw [if_pos ho]
      rfl
    · rw [if_neg ho]
      simpa using ih

theorem countP_updateFirstList (l : List PipelineObject) (id : String)
    (f : PipelineObject → PipelineObject) (q : PipelineObject → Bool)
    (hpres : ∀ o, q (f o) = q o) :
    (updateFirstList l id f).countP q = l.countP q := by
  induction l with
  | nil => rfl
  | cons o t ih =>
    simp only [updateFirstList]
    by_cases ho : (o.id == id) = true
    · rw [if_pos ho]
      rw [List.countP_cons, List.countP_cons, hpres]
    · rw [if_neg ho]
      rw [List.countP_cons, List.countP_cons, ih]

theorem find?_updateFirstList_self (l : List PipelineObject) (id : String)
    (f : PipelineObject → PipelineObject) (hpres : ∀ o, (f o).id = o.id) :
    (updateFirstList l id f).find? (fun o => o.id == id)
      = (l.find? (fun o => o.id == id)).map f := by
  induction l with
  | nil => rfl
  | cons o t ih =>
    simp only [updateFirstList]
    by_cases ho : (o.id == id) = true
    · rw [if_pos ho]
      have hfo : ((f o).id == id) = true := by rw [hpres]; exact ho
      simp only [List.find?_cons, ho, hfo, Option.map_some']
    · rw [if_neg ho]
      have ho' : (o.id == id) = false := by
        simp only [Bool.not_eq_true] at ho
        exact ho
      simp only [List.find?_cons, ho']
      exact ih

theorem find?_updateFirstList_ne (l : List PipelineObject) (id id' : String)
    (f : PipelineObject → PipelineObject) (hpres : ∀ o, (f o).id = o.id)
    (h : id' ≠ id) :
    (updateFirstList l id f).find? (fun o => o.id == id')
      = l.find? (fun o => o.id == id') := by
  induction l with
  | nil => rfl
  | cons o t ih =>
    simp only [updateFirstList]
    by_cases ho : (o.id == id) = true
    · rw [if_pos ho]
      have hoid : o.id = id := by simpa using ho
      have h1 : ((f o).id == id') = false := by
        rw [hpres, hoid]
        exact beq_eq_false_iff_ne.mpr (Ne.symm h)
      have h2 : (o.id == id') = false := by
        rw [hoid]
        exact beq_eq_false_iff_ne.mpr (Ne.symm h)
      simp only [List.find?_cons, h1, h2]
    · rw [if_neg ho]
      rcases Bool.eq_false_or_eq_true (o.id == id') with hb | hb
      · simp only [List.find?_cons, hb]
      · simp only [List.find?_cons, hb]
        exact ih

theorem updateFirstList_comp (l : List PipelineObject) (id : String)
    (f g : PipelineObject → PipelineObject) (hpres : ∀ o, (f o).id = o.id) :
    updateFirstList (updateFirstList l id f) id g
      = updateFirstList l id (fun o => g (f o)) := by
  induction l with
  | nil => rfl
  | cons o t ih =>
    by_cases ho : (o.id == id) = true
    · have hfo : ((f o).id == id) = true := by rw [hpres]; exact ho
      simp [updateFirstList, ho, hfo]
    · simp [updateFirstList, ho, ih]

theorem updateFirstList_congr (l : List PipelineObject) (id : String)
    (f g : PipelineObject → PipelineObject) (h : ∀ o, f o = g o) :
    updateFirstList l id f = updateFirstList l id g := by
  induction l with
  | nil => rfl
  | cons o t ih =>
    simp only [updateFirstList]
    by_cases ho : (o.id == id) = true
    · rw [if_pos ho, if_pos ho, h o]
    · rw [if_neg ho, if_neg ho, ih]

/-! ### Resolver lemmas -/

theorem getitem_of_items (o : PipelineOptions) (k v : String)
    (h : dictGet? o.items k = some v) : o.getitem k = .ok v := by
  unfold PipelineOptions.getitem
  rw [h]

theorem getitem_of_no_items (o : PipelineOptions) (k : String)
    (h : dictGet? o.items k = none) :
    o.getitem k = match o.env (o.envPfx ++ k) with
                  | some v => Except.ok v
                  | none => Except.error (.keyError k) := by
  unfold PipelineOptions.getitem PipelineOptions._getenv getenvRaw
  rw [h]
  cases o.env (o.envPfx ++ k) <;> rfl

theorem getitem_setitem_self (o : PipelineOptions) (k v : String) :
    (o.setitem k v).getitem k = .ok v := by
  unfold PipelineOptions.setitem
  exact getitem_of_items _ k v (dictGet?_dictSet_self o.items k v)

theorem contains_iff_ok (o : PipelineOptions) (k : String) :
    o.contains k = true ↔ ∃ v, o.getitem k = .ok v := by
  unfold PipelineOptions.contains
  constructor
  · intro h
    cases hg : o.getitem k with
    | ok v => exact ⟨v, rfl⟩
    | error e =>
      rw [hg] at h
      exact absurd h (by simp)
  · intro ⟨v, hv⟩
    rw [hv]

theorem contains_false_of_error (o : PipelineOptions) (k : String) (e : PyErr)
    (h : o.getitem k = .error e) : o.contains k = false := by
  unfold PipelineOptions.contains
  rw [h]

theorem getitem_error_shape (o : PipelineOptions) (k : String) (e : PyErr)
    (h : o.getitem k = .error e) : e = .keyError k := by
  unfold PipelineOptions.getitem at h
  rcases hd : dictGet? o.items k with _ | v
  · rw [hd] at h
    rcases he : o._getenv k none with _ | w
    · rw [he] at h
      cases h
      rfl
    · rw [he] at h
      cases h
  · rw [hd] at h
    cases h

/-! ### Defaults-seeding lemmas -/

theorem dictGet?_append_left {α : Type} {l : List (String × α)} {k : String} {v : α}
    (h : dictGet? l k = some v) (l2 : List (String × α)) :
    dictGet? (l ++ l2) k = some v := by
  unfold dictGet? at h ⊢
  rw [List.find?_append]
  rcases hf : l.find? (fun p => p.1 == k) with _ | x
  · rw [hf] at h
    cases h
  · rw [hf] at h
    rw [hf]
    exact h

theorem dictGet?_append_single_ne {α : Type} (l : List (String × α)) (k k2 : String)
    (v2 : α) (h : k2 ≠ k) : dictGet? (l ++ [(k2, v2)]) k = dictGet? l k := by
  unfold dictGet?
  rw [List.find?_append]
  have hsing : List.find? (fun p => p.1 == k) [(k2, v2)] = none := by
    rw [List.find?_eq_none]
    intro x hx
    simp only [List.mem_singleton] at hx
    rw [hx]
    simp only [beq_iff_eq]
    exact h
  rw [hsing, Option.or_none]

theorem dictGet?_append_self {α : Type} {l : List (String × α)} {k : String}
    (h : dictGet? l k = none) (v : α) : dictGet? (l ++ [(k, v)]) k = some v := by
  unfold dictGet? at h ⊢
  rw [List.find?_append]
  rcases hf : l.find? (fun p => p.1 == k) with _ | x
  · have hsing : List.find? (fun p => p.1 == k) [(k, v)] = some (k, v) := by
      simp [List.find?_cons]
    rw [hf, hsing]
    rfl
  · rw [hf] at h
    cases h

theorem foldl_dictSet_absent (options : List (String × String)) (k : String)
    (h : ∀ p ∈ options, p.1 ≠ k) (acc : List (String × String))
    (hacc : dictGet? acc k = none) :
    dictGet? (options.foldl (fun acc p => dictSet acc p.1 p.2) acc) k = none := by
  induction options generalizing acc with
  | nil => exact hacc
  | cons p t ih =>
    simp only [List.foldl_cons]
    refine ih (fun x hx => h x (List.mem_cons_of_mem p hx)) _ ?_
    rw [dictGet?_dictSet_ne _ _ _ _ (Ne.symm (h p (List.mem_cons_self p t)))]
    exact hacc

theorem seed_value_eq (pfx : String) (env : Env) (k d : String) :
    (match getenvRaw pfx env k (some d) with
     | some v => v
     | none => d) = (env (pfx ++ k)).getD d := by
  unfold getenvRaw
  cases env (pfx ++ k) <;> rfl

theorem foldl_seed_preserve (defaults : List (String × String)) (pfx : String) (env : Env)
    (acc : List (String × String)) (k v : String) (h : dictGet? acc k = some v) :
    dictGet? (defaults.foldl (seedStep pfx env) acc) k = some v := by
  induction defaults generalizing acc with
  | nil => exact h
  | cons p t ih =>
    simp only [List.foldl_cons]
    refine ih _ ?_
    unfold seedStep
    by_cases hs : (dictGet? acc p.1).isSome = true
    · rw [if_pos hs]
      exact h
    · rw [if_neg hs]
      by_cases hkp : p.1 = k
      · rw [hkp, h] at hs
        exact absurd rfl hs
      · rw [dictGet?_append_single_ne _ _ _ _ hkp]
        exact h

theorem foldl_seed_eval (defaults : List (String × String)) (pfx : String) (env : Env)
    (acc : List (String × String)) (k d : String)
    (hacc : dictGet? acc k = none) (hd : dictGet? defaults k = some d) :
    dictGet? (defaults.foldl (seedStep pfx env) acc) k
      = some ((env (pfx ++ k)).getD d) := by
  induction defaults generalizing acc with
  | nil => cases hd
  | cons p t ih =>
    simp only [List.foldl_cons]
    by_cases hkp : p.1 = k
    · have hdval : p.2 = d := by
        unfold dictGet? at hd
        rw [List.find?_cons_of_pos _ (by simp [hkp])] at hd
        simpa using hd
      have hstep : seedStep pfx env acc p
          = acc ++ [(k, (env (pfx ++ k)).getD d)] := by
        unfold seedStep
        rw [if_neg (by rw [hkp, hacc]; simp)]
        rw [hkp] at *
        rw [hdval, seed_value_eq]
      rw [hstep]
      exact foldl_seed_preserve t pfx env _ k _ (dictGet?_append_self hacc _)
    · have hd' : dictGet? t k = some d := by
        unfold dictGet? at hd
        rw [List.find?_cons_of_neg _ (by simp [hkp])] at hd
        exact hd
      refine ih _ ?_ hd'
      unfold seedStep
      by_cases hs : (dictGet? acc p.1).isSome = true
      · rw [if_pos hs]
        exact hacc
      · rw [if_neg hs]
        rw [dictGet?_append_single_ne _ _ _ _ hkp]
        exact hacc

/-! ### Builder lemmas -/

theorem ensure_found (p : EasyPipeline) (id : String) (obj o : PipelineObject)
    (h : p._get_object id = some o) : p._ensure_object id obj = (p, id) := by
  unfold EasyPipeline._ensure_object
  rw [h]

theorem ensure_not_found (p : EasyPipeline) (id : String) (obj : PipelineObject)
    (h : p._get_object id = none) : p._ensure_object id obj = (p.add obj, id) := by
  unfold EasyPipeline._ensure_object
  rw [h]

theorem get_object_add_self (p : EasyPipeline) (id : String) (obj : PipelineObject)
    (h : p._get_object id = none) (hid : obj.id = id) :
    (p.add obj)._get_object id = some obj := by
  unfold EasyPipeline._get_object EasyPipeline.add at *
  simp only []
  rw [List.find?_append, h, Option.none_or]
  have : (obj.id == id) = true := by simp [hid]
  simp [List.find?_cons, this]

theorem get_object_add_keeps (p : EasyPipeline) (id : String) (obj o : PipelineObject)
    (h : p._get_object id = some o) (obj2 : PipelineObject) :
    (p.add obj2)._get_object id = some o := by
  unfold EasyPipeline._get_object EasyPipeline.add at *
  simp only []
  rw [List.find?_append, h]
  rfl

theorem ensure_options (p : EasyPipeline) (id : String) (obj : PipelineObject) :
    (p._ensure_object id obj).1.options = p.options := by
  unfold EasyPipeline._ensure_object
  cases p._get_object id <;> rfl

theorem ensure_name (p : EasyPipeline) (id : String) (obj : PipelineObject) :
    (p._ensure_object id obj).1.name = p.name := by
  unfold EasyPipeline._ensure_object
  cases p._get_object id <;> rfl

theorem ensure_region (p : EasyPipeline) (id : String) (obj : PipelineObject) :
    (p._ensure_object id obj).1.regionName = p.regionName := by
  unfold EasyPipeline._ensure_object
  cases p._get_object id <;> rfl

theorem ensure_ref (p : EasyPipeline) (id : String) (obj : PipelineObject) :
    (p._ensure_object id obj).2 = id := by
  unfold EasyPipeline._ensure_object
  cases p._get_object id <;> rfl

theorem ensure_get_object (p : EasyPipeline) (id : String) (obj : PipelineObject)
    (hid : obj.id = id) :
    ∃ o, (p._ensure_object id obj).1._get_object id = some o := by
  rcases hg : p._get_object id with _ | o
  · rw [ensure_not_found p id obj hg]
    exact ⟨obj, get_object_add_self p id obj hg hid⟩
  · rw [ensure_found p id obj o hg]
    exact ⟨o, hg⟩

theorem ensure_objects_cases (p : EasyPipeline) (id : String) (obj : PipelineObject) :
    (p._ensure_object id obj).1.objects = p.objects
      ∨ (p._get_object id = none
          ∧ (p._ensure_object id obj).1.objects = p.objects ++ [obj]) := by
  rcases hg : p._get_object id with _ | o
  · rw [ensure_not_found p id obj hg]
    exact Or.inr ⟨rfl, rfl⟩
  · rw [ensure_found p id obj o hg]
    exact Or.inl rfl

theorem get_defaults_eq (p : EasyPipeline) (lu ro rr : String)
    (h1 : p.options.getitem "LOG_URI" = .ok lu)
    (h2 : p.options.getitem "PIPELINE_ROLE" = .ok ro)
    (h3 : p.options.getitem "PIPELINE_RESOURCE_ROLE" = .ok rr) :
    p.get_defaults = .ok (p._ensure_object "Default" (defaultObject lu ro rr)) := by
  unfold EasyPipeline.get_defaults
  rw [h1, h2, h3]

theorem get_schedule_eq (p : EasyPipeline) (S lu ro rr : String)
    (h1 : p.options.getitem "LOG_URI" = .ok lu)
    (h2 : p.options.getitem "PIPELINE_ROLE" = .ok ro)
    (h3 : p.options.getitem "PIPELINE_RESOURCE_ROLE" = .ok rr) :
    p.get_schedule S =
      .ok (((((p._ensure_object S (scheduleObject S)).1._ensure_object "Default"
              (defaultObject lu ro rr)).1.updFirst
              ((p._ensure_object S (scheduleObject S)).1._ensure_object "Default"
              (defaultObject lu ro rr)).2
              (fun o => o.setField "scheduleType" scheduleTypeCron)).updFirst
              ((p._ensure_object S (scheduleObject S)).1._ensure_object "Default"
              (defaultObject lu ro rr)).2
              (fun o => o.setField "schedule" (.ref (p._ensure_object S (scheduleObject S)).2))),
           (p._ensure_object S (scheduleObject S)).2) := by
  simp only [EasyPipeline.get_schedule]
  have hopts : (p._ensure_object S (scheduleObject S)).1.options = p.options :=
    ensure_options p S (scheduleObject S)
  rw [get_defaults_eq _ lu ro rr (by rw [hopts]; exact h1) (by rw [hopts]; exact h2)
      (by rw [hopts]; exact h3)]

theorem requiredOk_contains (p : EasyPipeline) (h : p.requiredOk = true) :
    ∀ k ∈ REQUIRED_OPTIONS, p.options.contains k = true := by
  unfold EasyPipeline.requiredOk at h
  exact fun k hk => List.all_eq_true.mp h k hk

theorem requiredOk_getitem (p : EasyPipeline) (h : p.requiredOk = true)
    (k : String) (hk : k ∈ REQUIRED_OPTIONS) : ∃ v, p.options.getitem k = .ok v :=
  (contains_iff_ok p.options k).mp (requiredOk_contains p h k hk)

theorem data_mem_quoteJoin (k : String) (l : List String) (h : k ∈ l) :
    ∃ a b : List Char, (quoteJoin l).data = a ++ k.data ++ b := by
  induction l with
  | nil => cases h
  | cons x t ih =>
    cases t with
    | nil =>
      simp only [List.mem_singleton] at h
      subst h
      exact ⟨squote.data, squote.data, by simp [quoteJoin, String.data_append]⟩
    | cons y t2 =>
      rcases List.mem_cons.mp h with h | h
      · subst h
        refine ⟨squote.data, (squote ++ ", " ++ quoteJoin (y :: t2)).data, ?_⟩
        simp [quoteJoin, String.data_append, List.append_assoc]
      · rcases ih h with ⟨a, b, hab⟩
        refine ⟨(squote ++ x ++ squote ++ ", ").data ++ a, b, ?_⟩
        simp [quoteJoin, String.data_append, hab, List.append_assoc]

theorem data_mem_errMsg (k : String) (missing : List String) (h : k ∈ missing) :
    ∃ a b : List Char, (requiredErrMsg missing).data = a ++ k.data ++ b := by
  rcases data_mem_quoteJoin k missing h with ⟨a, b, hab⟩
  refine ⟨("The following required options are not set: ").data ++ ("[").data ++ a,
          b ++ ("]").data, ?_⟩
  simp [requiredErrMsg, pyReprList, String.data_append, hab, List.append_assoc]

theorem missing_nil_contains (options : PipelineOptions)
    (hm : missingOptions options = []) :
    ∀ k ∈ REQUIRED_OPTIONS, options.contains k = true := by
  intro k hk
  have h := List.filter_eq_nil_iff.mp hm k hk
  simpa using h

theorem init_ok_elim (name uniqueId : String) (options : PipelineOptions)
    (desc : Option String) (region : String) (p : EasyPipeline)
    (h : EasyPipeline.init name uniqueId options desc region = .ok p) :
    missingOptions (synthLogUri options name region) = []
    ∧ p.options = synthLogUri options name region
    ∧ ∃ lu ro rr,
        (synthLogUri options name region).getitem "LOG_URI" = .ok lu
        ∧ (synthLogUri options name region).getitem "PIPELINE_ROLE" = .ok ro
        ∧ (synthLogUri options name region).getitem "PIPELINE_RESOURCE_ROLE" = .ok rr
        ∧ p.objects = [defaultObject lu ro rr] := by
  simp only [EasyPipeline.init] at h
  by_cases hm : missingOptions (synthLogUri options name region) = []
  · rw [if_pos hm] at h
    have hc := missing_nil_contains _ hm
    obtain ⟨lu, hlu⟩ := (contains_iff_ok _ _).mp (hc "LOG_URI" (by simp [REQUIRED_OPTIONS]))
    obtain ⟨ro, hro⟩ := (contains_iff_ok _ _).mp (hc "PIPELINE_ROLE" (by simp [REQUIRED_OPTIONS]))
    obtain ⟨rr, hrr⟩ :=
      (contains_iff_ok _ _).mp (hc "PIPELINE_RESOURCE_ROLE" (by simp [REQUIRED_OPTIONS]))
    rw [get_defaults_eq _ lu ro rr hlu hro hrr] at h
    have h2 : (Except.ok
        (({ name := name, uniqueId := uniqueId, desc := desc, regionName := region,
            options := synthLogUri options name region,
            objects := [] } : EasyPipeline)._ensure_object "Default"
          (defaultObject lu ro rr)).1 : Except PyErr EasyPipeline) = Except.ok p := h
    have h3 := Except.ok.inj h2
    refine ⟨hm, ?_, lu, ro, rr, hlu, hro, hrr, ?_⟩
    · rw [← h3]
      rfl
    · rw [← h3]
      rfl
  · rw [if_neg hm] at h
    cases h

/-! ### Claims about the configuration resolver -/

/-- Claim C9: the delete, iterate, and length operations of the resolver always
raise the unsupported-operation error (`NotImplementedError`); being pure
functions of an unchanged resolver value, they leave its contents intact. -/
theorem claim_C9 (o : PipelineOptions) (k : String) :
    o.delitem k = .error .notImplementedError
    ∧ o.iterKeys = .error .notImplementedError
    ∧ o.len = .error .notImplementedError :=
  ⟨rfl, rfl, rfl⟩

/-- Claim C5: `get` consults the explicit table first; on a miss it reads the
environment variable named by the prefix (with `_` appended when non-empty,
bare key otherwise) and raises `KeyError` when both miss; a key written with
`set` is afterwards read back from the explicit table even when the
environment defines the prefixed name. -/
theorem claim_C5 :
    (∀ (o : PipelineOptions) (k v : String),
        dictGet? o.items k = some v → o.getitem k = .ok v)
    ∧ (∀ (o : PipelineOptions) (k : String),
        dictGet? o.items k = none →
          o.getitem k = match o.env (o.envPfx ++ k) with
                        | some v => Except.ok v
                        | none => Except.error (.keyError k))
    ∧ (∀ (options defaults : List (String × String)) (env : Env) (s : String), s ≠ "" →
        (PipelineOptions.init options defaults (some s) env).envPfx = s ++ "_")
    ∧ ((∀ (options defaults : List (String × String)) (env : Env),
        (PipelineOptions.init options defaults none env).envPfx = ""
        ∧ (PipelineOptions.init options defaults (some "") env).envPfx = ""))
    ∧ (∀ (o : PipelineOptions) (k v : String), (o.setitem k v).getitem k = .ok v) := by
  refine ⟨getitem_of_items, getitem_of_no_items, ?_, ?_, getitem_setitem_self⟩
  · intro options defaults env s hs
    simp [PipelineOptions.init, hs]
  · intro options defaults env
    exact ⟨rfl, rfl⟩

/-- Claim C5 witness: concrete evaluations of the lookup order, the prefix
shape, and explicit-wins-over-environment. -/
theorem claim_C5_witness :
    wOpts.getitem "LOG_URI" = .ok "lu"
    ∧ wOptsMissing.getitem "EC2_SUBNET" = .error (.keyError "EC2_SUBNET")
    ∧ (PipelineOptions.init [] [] (some "PIPELINE") wEnvX).envPfx = "PIPELINE_"
    ∧ ((PipelineOptions.init [] [] (some "PIPELINE") wEnvX).setitem "X" "explicit").getitem "X"
        = .ok "explicit" := by
  refine ⟨claim_C5.1 wOpts "LOG_URI" "lu" (by decide), ?_, ?_,
          claim_C5.2.2.2.2 (PipelineOptions.init [] [] (some "PIPELINE") wEnvX) "X" "explicit"⟩
  · exact claim_C5.2.1 wOptsMissing "EC2_SUBNET" (by decide)
  · exact claim_C5.2.2.1 [] [] wEnvX "PIPELINE" (by decide)

/-- Claim C4: a defaults key absent from the explicit options is seeded at
construction with the prefixed environment value when set, else the literal
default; the seeded value lives in the explicit table, so later environment
changes no longer affect the key. -/
theorem claim_C4 (options defaults : List (String × String)) (pfxArg : Option String)
    (env : Env) (k d : String)
    (hd : dictGet? defaults k = some d)
    (habs : ∀ x ∈ options, x.1 ≠ k) :
    (PipelineOptions.init options defaults pfxArg env).getitem k
      = .ok ((env ((PipelineOptions.init options defaults pfxArg env).envPfx ++ k)).getD d)
    ∧ ∀ env2 : Env,
        ({ PipelineOptions.init options defaults pfxArg env with env := env2 }).getitem k
          = .ok ((env ((PipelineOptions.init options defaults pfxArg env).envPfx ++ k)).getD d) := by
  have hitems : dictGet? (PipelineOptions.init options defaults pfxArg env).items k
      = some ((env ((PipelineOptions.init options defaults pfxArg env).envPfx ++ k)).getD d) := by
    simp only [PipelineOptions.init]
    exact foldl_seed_eval defaults _ env _ k d
      (foldl_dictSet_absent options k habs [] rfl) hd
  exact ⟨getitem_of_items _ k _ hitems, fun env2 => getitem_of_items _ k _ hitems⟩

/-- Claim C4 witness: with the prefixed variable set the seeded value is the
value from the environment; without it, the literal default; and replacing the
environment after construction does not change the value read back. -/
theorem claim_C4_witness :
    (PipelineOptions.init [] [("X", "fallback")] (some "PIPELINE") wEnvX).getitem "X"
      = .ok "from_env"
    ∧ (PipelineOptions.init [] [("X", "fallback")] (some "PIPELINE") (fun _ => none)).getitem "X"
      = .ok "fallback"
    ∧ ({ PipelineOptions.init [] [("X", "fallback")] (some "PIPELINE") wEnvX with
          env := fun _ => none } : PipelineOptions).getitem "X" = .ok "from_env" := by
  have h1 := claim_C4 [] [("X", "fallback")] (some "PIPELINE") wEnvX "X" "fallback"
    (by decide) (by simp)
  have h2 := claim_C4 [] [("X", "fallback")] (some "PIPELINE") (fun _ => none) "X" "fallback"
    (by decide) (by simp)
  exact ⟨h1.1, h2.1, h1.2 (fun _ => none)⟩

/-! ### Claims about Pipeline Builder construction -/

/-- Claim C3: when `LOG_URI` does not resolve but `LOG_URI_TEMPLATE` does,
construction writes `LOG_URI` into the resolver as the template with the
region and pipeline name substituted for their placeholders, readable both
right after the synthesis step and from the constructed pipeline. -/
theorem claim_C3 (options : PipelineOptions) (name uniqueId region t : String)
    (desc : Option String)
    (h1 : options.contains "LOG_URI" = false)
    (h2 : options.getitem "LOG_URI_TEMPLATE" = .ok t) :
    (synthLogUri options name region).getitem "LOG_URI"
      = .ok (formatTemplate t region name)
    ∧ (∀ p, EasyPipeline.init name uniqueId options desc region = .ok p →
        p.options.getitem "LOG_URI" = .ok (formatTemplate t region name)) := by
  have hc2 : options.contains "LOG_URI_TEMPLATE" = true :=
    (contains_iff_ok _ _).mpr ⟨t, h2⟩
  have hsynth : synthLogUri options name region
      = options.setitem "LOG_URI" (formatTemplate t region name) := by
    unfold synthLogUri
    rw [h1, hc2, h2]
    rfl
  constructor
  · rw [hsynth]
    exact getitem_setitem_self options _ _
  · intro p hp
    have helim := init_ok_elim name uniqueId options desc region p hp
    rw [helim.2.1, hsynth]
    exact getitem_setitem_self options _ _

/-- Claim C3 witness: the template `{region}-{pipeline_name}` with region
`us-east-1` and name `demo` yields `LOG_URI` equal to `us-east-1-demo`, both
from the synthesis step and after a full successful construction. -/
theorem claim_C3_witness :
    (synthLogUri wOptsTmpl "demo" "us-east-1").getitem "LOG_URI" = .ok "us-east-1-demo"
    ∧ ∀ p, EasyPipeline.init "demo" "u" wOptsTmpl none "us-east-1" = .ok p →
        p.options.getitem "LOG_URI" = .ok "us-east-1-demo" := by
  have h := claim_C3 wOptsTmpl "demo" "u" "us-east-1"
    "\x7bregion\x7d-\x7bpipeline_name\x7d" none (by decide) (by rfl)
  exact ⟨h.1, h.2⟩

/-- Claim C2: construction fails with a `ValueError` naming every
unresolvable required key when at least one of the seven does not resolve,
and succeeds when all seven resolve. -/
theorem claim_C2 (name uniqueId : String) (options : PipelineOptions)
    (desc : Option String) (region : String) :
    (missingOptions (synthLogUri options name region) ≠ [] →
        EasyPipeline.init name uniqueId options desc region
          = .error (.valueError (requiredErrMsg (missingOptions (synthLogUri options name region))))
        ∧ ∀ k ∈ REQUIRED_OPTIONS, (synthLogUri options name region).contains k = false →
            ∃ a b : List Char,
              (requiredErrMsg (missingOptions (synthLogUri options name region))).data
                = a ++ k.data ++ b)
    ∧ (missingOptions (synthLogUri options name region) = [] →
        ∃ p, EasyPipeline.init name uniqueId options desc region = .ok p) := by
  constructor
  · intro hm
    constructor
    · simp only [EasyPipeline.init]
      rw [if_neg hm]
    · intro k hk hkc
      refine data_mem_errMsg k _ ?_
      exact List.mem_filter.mpr ⟨hk, by rw [hkc]; rfl⟩
  · intro hm
    have hc := missing_nil_contains _ hm
    obtain ⟨lu, hlu⟩ := (contains_iff_ok _ _).mp (hc "LOG_URI" (by simp [REQUIRED_OPTIONS]))
    obtain ⟨ro, hro⟩ := (contains_iff_ok _ _).mp (hc "PIPELINE_ROLE" (by simp [REQUIRED_OPTIONS]))
    obtain ⟨rr, hrr⟩ :=
      (contains_iff_ok _ _).mp (hc "PIPELINE_RESOURCE_ROLE" (by simp [REQUIRED_OPTIONS]))
    simp only [EasyPipeline.init]
    rw [if_pos hm, get_defaults_eq _ lu ro rr hlu hro hrr]
    exact ⟨_, rfl⟩

/-- Claim C2 witness: a resolver missing `EC2_SUBNET` and
`EC2_SECURITY_GROUP` fails with a message containing both names; the full
resolver constructs successfully. -/
theorem claim_C2_witness :
    (EasyPipeline.init "n" "u" wOptsMissing none "reg"
        = .error (.valueError
            (requiredErrMsg (missingOptions (synthLogUri wOptsMissing "n" "reg"))))
      ∧ (∃ a b : List Char,
          (requiredErrMsg (missingOptions (synthLogUri wOptsMissing "n" "reg"))).data
            = a ++ ("EC2_SUBNET").data ++ b)
      ∧ (∃ a b : List Char,
          (requiredErrMsg (missingOptions (synthLogUri wOptsMissing "n" "reg"))).data
            = a ++ ("EC2_SECURITY_GROUP").data ++ b))
    ∧ (∃ p, EasyPipeline.init "n" "u" wOpts none "reg" = .ok p) := by
  have h := claim_C2 "n" "u" wOptsMissing none "reg"
  have hfail := h.1 (by decide)
  have hok := (claim_C2 "n" "u" wOpts none "reg").2 (by decide)
  refine ⟨⟨hfail.1, ?_, ?_⟩, hok⟩
  · exact hfail.2 "EC2_SUBNET" (by simp [REQUIRED_OPTIONS]) (by decide)
  · exact hfail.2 "EC2_SECURITY_GROUP" (by simp [REQUIRED_OPTIONS]) (by decide)

/-! ### Claims about the get-or-create accessors -/

theorem ensure_appendOnly (p : EasyPipeline) (id : String) (obj : PipelineObject)
    (hid : obj.id = id) : appendOnly p (p._ensure_object id obj).1 id := by
  rcases ensure_objects_cases p id obj with hc | ⟨_, hc⟩
  · exact ⟨[], by rw [hc, List.append_nil], Or.inl rfl⟩
  · exact ⟨[obj], hc, Or.inr ⟨obj, rfl, hid⟩⟩

/-- Claim C10: `get_shell_command_activity`, `get_ec2_resource`,
`get_sns_alarm`, and `get_sns_failure_handler` modify no record other than
the one they return: every pre-existing record (the `Default` record
included) stays in place unchanged, with at most a freshly created record of
the requested id appended. -/
theorem claim_C10 (p : EasyPipeline) (id : String) :
    appendOnly p (p.get_shell_command_activity id).1 id
    ∧ (∀ g, p.get_ec2_resource id = .ok g → appendOnly p g.1 id)
    ∧ (∀ g, p.get_sns_alarm id = .ok g → appendOnly p g.1 id)
    ∧ (∀ g, p.get_sns_failure_handler id = .ok g → appendOnly p g.1 id) := by
  refine ⟨ensure_appendOnly p id (shellObject id) rfl, ?_, ?_, ?_⟩
  · intro g hg
    unfold EasyPipeline.get_ec2_resource at hg
    split at hg
    · cases hg
    · split at hg
      · cases hg
      · split at hg
        · cases hg
        · split at hg
          · cases hg
          · rw [← Except.ok.inj hg]
            exact ensure_appendOnly p id _ rfl
  · intro g hg
    unfold EasyPipeline.get_sns_alarm at hg
    split at hg
    · cases hg
    · rw [← Except.ok.inj hg]
      exact ensure_appendOnly p id _ rfl
  · intro g hg
    unfold EasyPipeline.get_sns_failure_handler at hg
    split at hg
    · cases hg
    · rw [← Except.ok.inj hg]
      exact ensure_appendOnly p id _ rfl

/-- Claim C10 witness: on a constructed pipeline, `get_ec2_resource` appends
exactly the new resource record after the untouched `Default` record. -/
theorem claim_C10_witness :
    wP.get_ec2_resource "A" = .ok (wPe, "A")
    ∧ appendOnly wP wPe "A"
    ∧ wPe.objects = wP.objects ++ [ec2Object "A" "am" "kp" "sn" "sg"] := by
  have h : wP.get_ec2_resource "A" = .ok (wPe, "A") := by rfl
  exact ⟨h, (claim_C10 wP "A").2.1 (wPe, "A") h, by rfl⟩

theorem countDefault_pos_get_object (q : EasyPipeline) (h : countDefault q = 1) :
    q._get_object "Default" ≠ none := by
  unfold countDefault at h
  have hpos : 0 < q.objects.countP (fun o => o.id == "Default") := by
    rw [h]
    exact Nat.one_pos
  rcases List.countP_pos_iff.mp hpos with ⟨x, hx, hpx⟩
  unfold EasyPipeline._get_object
  intro hn
  exact absurd hpx (by simpa using List.find?_eq_none.mp hn x hx)

theorem countDefault_ensure (q : EasyPipeline) (id : String) (obj : PipelineObject)
    (hid : obj.id = id) (h : countDefault q = 1) :
    countDefault (q._ensure_object id obj).1 = 1 := by
  rcases ensure_objects_cases q id obj with hc | ⟨hnone, hc⟩
  · unfold countDefault at *
    rw [hc]
    exact h
  · unfold countDefault at *
    rw [hc, List.countP_append]
    by_cases hidD : id = "Default"
    · exact absurd (hidD ▸ hnone) (countDefault_pos_get_object q (by unfold countDefault; exact h))
    · have hz : List.countP (fun o => o.id == "Default") [obj] = 0 := by
        simp [List.countP_cons, hid, hidD]
      rw [hz, h]

theorem countDefault_updFirst (q : EasyPipeline) (D : String)
    (f : PipelineObject → PipelineObject) (hpres : ∀ o, (f o).id = o.id) :
    countDefault (q.updFirst D f) = countDefault q := by
  unfold countDefault EasyPipeline.updFirst
  exact countP_updateFirstList q.objects D f _ (fun o => by rw [hpres o])

theorem countDefault_get_defaults (q : EasyPipeline) (g : EasyPipeline × String)
    (h : q.get_defaults = .ok g) (hcd : countDefault q = 1) : countDefault g.1 = 1 := by
  unfold EasyPipeline.get_defaults at h
  split at h
  · cases h
  · split at h
    · cases h
    · split at h
      · cases h
      · rw [← Except.ok.inj h]
        exact countDefault_ensure q "Default" _ rfl hcd

/-- Claim C7: a successful construction leaves the registry holding exactly
the one `Default` record, preset with on-demand schedule type, cascade
failure/rerun mode, and the log-URI, role, and resource-role resolver
values; and each accessor preserves the exactly-one-`Default` invariant. -/
theorem claim_C7 (name uniqueId : String) (options : PipelineOptions)
    (desc : Option String) (region : String) (p : EasyPipeline)
    (h : EasyPipeline.init name uniqueId options desc region = .ok p) :
    (∃ lu ro rr, p.options.getitem "LOG_URI" = .ok lu
        ∧ p.options.getitem "PIPELINE_ROLE" = .ok ro
        ∧ p.options.getitem "PIPELINE_RESOURCE_ROLE" = .ok rr
        ∧ p.objects = [defaultObject lu ro rr])
    ∧ countDefault p = 1
    ∧ (∀ q id, countDefault q = 1 →
        countDefault (q.get_shell_command_activity id).1 = 1
        ∧ (∀ g, q.get_defaults = .ok g → countDefault g.1 = 1)
        ∧ (∀ g, q.get_schedule id = .ok g → countDefault g.1 = 1)
        ∧ (∀ g, q.get_ec2_resource id = .ok g → countDefault g.1 = 1)
        ∧ (∀ g, q.get_sns_alarm id = .ok g → countDefault g.1 = 1)
        ∧ (∀ g, q.get_sns_failure_handler id = .ok g → countDefault g.1 = 1)) := by
  have helim := init_ok_elim name uniqueId options desc region p h
  obtain ⟨hm, hopts, lu, ro, rr, hlu, hro, hrr, hobj⟩ := helim
  refine ⟨⟨lu, ro, rr, by rw [hopts]; exact hlu, by rw [hopts]; exact hro,
           by rw [hopts]; exact hrr, hobj⟩, ?_, ?_⟩
  · unfold countDefault
    rw [hobj]
    rfl
  · intro q id hcd
    refine ⟨?_, ?_, ?_, ?_, ?_, ?_⟩
    · unfold EasyPipeline.get_shell_command_activity
      exact countDefault_ensure q id _ rfl hcd
    · exact fun g hg => countDefault_get_defaults q g hg hcd
    · intro g hg
      simp only [EasyPipeline.get_schedule] at hg
      have hcd1 : countDefault (q._ensure_object id (scheduleObject id)).1 = 1 :=
        countDefault_ensure q id _ rfl hcd
      split at hg
      · cases hg
      · rename_i got hgot
        rw [← Except.ok.inj hg]
        have hcd2 : countDefault got.1 = 1 :=
          countDefault_get_defaults _ got hgot hcd1
        rw [countDefault_updFirst, countDefault_updFirst]
        · exact hcd2
        · exact fun o => rfl
        · exact fun o => rfl
    · intro g hg
      unfold EasyPipeline.get_ec2_resource at hg
      split at hg
      · cases hg
      · split at hg
        · cases hg
        · split at hg
          · cases hg
          · split at hg
            · cases hg
            · rw [← Except.ok.inj hg]
              exact countDefault_ensure q id _ rfl hcd
    · intro g hg
      unfold EasyPipeline.get_sns_alarm at hg
      split at hg
      · cases hg
      · rw [← Except.ok.inj hg]
        exact countDefault_ensure q id _ rfl hcd
    · intro g hg
      unfold EasyPipeline.get_sns_failure_handler at hg
      split at hg
      · cases hg
      · rw [← Except.ok.inj hg]
        exact countDefault_ensure q id _ rfl hcd

/-- Claim C7 witness: the concrete construction over `wOpts` yields exactly
`wP` (whose registry is the single preset `Default` record), and an accessor
call preserves the single-`Default` count. -/
theorem claim_C7_witness :
    EasyPipeline.init "n" "u" wOpts none "reg" = .ok wP
    ∧ wP.objects = [defaultObject "lu" "ro" "rr"]
    ∧ countDefault wP = 1
    ∧ countDefault (wP.get_shell_command_activity "S").1 = 1 := by
  have hinit : EasyPipeline.init "n" "u" wOpts none "reg" = .ok wP := by rfl
  have h := claim_C7 "n" "u" wOpts none "reg" wP hinit
  exact ⟨hinit, by rfl, h.2.1, (h.2.2 wP "S" h.2.1).1⟩

theorem get_schedule_spec (p : EasyPipeline) (S lu ro rr : String)
    (h1 : p.options.getitem "LOG_URI" = .ok lu)
    (h2 : p.options.getitem "PIPELINE_ROLE" = .ok ro)
    (h3 : p.options.getitem "PIPELINE_RESOURCE_ROLE" = .ok rr) :
    ∃ q, p.get_schedule S = .ok (q, S)
      ∧ q.options = p.options
      ∧ ∃ d, q._get_object "Default" = some d
          ∧ dictGet? d.fields "scheduleType" = some scheduleTypeCron
          ∧ dictGet? d.fields "schedule" = some (Value.ref S) := by
  have heq := get_schedule_eq p S lu ro rr h1 h2 h3
  rw [ensure_ref, ensure_ref] at heq
  refine ⟨_, heq, (ensure_options _ _ _).trans (ensure_options _ _ _), ?_⟩
  obtain ⟨d0, hd0⟩ := ensure_get_object (p._ensure_object S (scheduleObject S)).1
    "Default" (defaultObject lu ro rr) rfl
  have hst : ∀ x : PipelineObject, (x.setField "scheduleType" scheduleTypeCron).id = x.id :=
    fun x => rfl
  have hsc : ∀ x : PipelineObject, (x.setField "schedule" (Value.ref S)).id = x.id :=
    fun x => rfl
  have hu1 : (((p._ensure_object S (scheduleObject S)).1._ensure_object "Default"
        (defaultObject lu ro rr)).1.updFirst "Default"
        (fun o => o.setField "scheduleType" scheduleTypeCron))._get_object "Default"
      = some (d0.setField "scheduleType" scheduleTypeCron) := by
    unfold EasyPipeline._get_object EasyPipeline.updFirst at *
    rw [find?_updateFirstList_self _ _ _ hst, hd0]
    rfl
  have hu2 : ((((p._ensure_object S (scheduleObject S)).1._ensure_object "Default"
        (defaultObject lu ro rr)).1.updFirst "Default"
        (fun o => o.setField "scheduleType" scheduleTypeCron)).updFirst "Default"
        (fun o => o.setField "schedule" (Value.ref S)))._get_object "Default"
      = some ((d0.setField "scheduleType" scheduleTypeCron).setField "schedule"
          (Value.ref S)) := by
    unfold EasyPipeline._get_object EasyPipeline.updFirst at *
    rw [find?_updateFirstList_self _ _ _ hsc, hu1]
    rfl
  refine ⟨_, hu2, ?_, ?_⟩
  · unfold PipelineObject.setField
    rw [dictGet?_dictSet_ne _ _ _ _ (by decide)]
    exact dictGet?_dictSet_self _ _ _
  · unfold PipelineObject.setField
    exact dictGet?_dictSet_self _ _ _

/-- Claim C6: after `get_schedule S` on a pipeline whose required options
resolve, the schedule-type field of the `Default` record is cron and its schedule
reference points at the record returned for `S`; a repeated call succeeds
and leaves the schedule fields of the `Default` record pointing at that same
record. -/
theorem claim_C6 (p : EasyPipeline) (S : String) (h : p.requiredOk = true) :
    ∃ q q2,
      p.get_schedule S = .ok (q, S)
      ∧ (∃ d, q._get_object "Default" = some d
          ∧ dictGet? d.fields "scheduleType" = some scheduleTypeCron
          ∧ dictGet? d.fields "schedule" = some (Value.ref S))
      ∧ q.get_schedule S = .ok (q2, S)
      ∧ (∃ d2, q2._get_object "Default" = some d2
          ∧ dictGet? d2.fields "scheduleType" = some scheduleTypeCron
          ∧ dictGet? d2.fields "schedule" = some (Value.ref S)) := by
  obtain ⟨lu, hlu⟩ := requiredOk_getitem p h "LOG_URI" (by simp [REQUIRED_OPTIONS])
  obtain ⟨ro, hro⟩ := requiredOk_getitem p h "PIPELINE_ROLE" (by simp [REQUIRED_OPTIONS])
  obtain ⟨rr, hrr⟩ :=
    requiredOk_getitem p h "PIPELINE_RESOURCE_ROLE" (by simp [REQUIRED_OPTIONS])
  obtain ⟨q, hq, hqo, hd⟩ := get_schedule_spec p S lu ro rr hlu hro hrr
  obtain ⟨q2, hq2, _, hd2⟩ := get_schedule_spec q S lu ro rr
    (by rw [hqo]; exact hlu) (by rw [hqo]; exact hro) (by rw [hqo]; exact hrr)
  exact ⟨q, q2, hq, hd, hq2, hd2⟩

/-- Claim C6 witness: the concrete pipeline `wP` with schedule id `S1`. -/
theorem claim_C6_witness :
    wP.requiredOk = true
    ∧ ∃ q q2,
        wP.get_schedule "S1" = .ok (q, "S1")
        ∧ (∃ d, q._get_object "Default" = some d
            ∧ dictGet? d.fields "scheduleType" = some scheduleTypeCron
            ∧ dictGet? d.fields "schedule" = some (Value.ref "S1"))
        ∧ q.get_schedule "S1" = .ok (q2, "S1")
        ∧ (∃ d2, q2._get_object "Default" = some d2
            ∧ dictGet? d2.fields "scheduleType" = some scheduleTypeCron
            ∧ dictGet? d2.fields "schedule" = some (Value.ref "S1")) :=
  ⟨by rfl, claim_C6 wP "S1" (by rfl)⟩

/-- Claim C1 (amended): the accessors perform no kind check.  When the
registry already holds a record with the requested id — whatever its kind,
in particular one differing from the kind of the accessor — the call succeeds and
returns that existing record (`get_schedule` additionally rewires the
`Default` record), rather than failing with a kind-mismatch error. -/
theorem claim_C1 (p : EasyPipeline) (id : String) (o oD : PipelineObject)
    (hreq : p.requiredOk = true)
    (h : p._get_object id = some o)
    (hD : p._get_object "Default" = some oD) :
    p.get_shell_command_activity id = (p, id)
    ∧ p.get_defaults = .ok (p, "Default")
    ∧ p.get_ec2_resource id = .ok (p, id)
    ∧ p.get_sns_alarm id = .ok (p, id)
    ∧ p.get_sns_failure_handler id = .ok (p, id)
    ∧ ∃ q, p.get_schedule id = .ok (q, id)
        ∧ q.objects.length = p.objects.length
        ∧ ∃ o2, q._get_object id = some o2 ∧ o2.kind = o.kind ∧ o2.id = o.id := by
  obtain ⟨lu, hlu⟩ := requiredOk_getitem p hreq "LOG_URI" (by simp [REQUIRED_OPTIONS])
  obtain ⟨ro, hro⟩ := requiredOk_getitem p hreq "PIPELINE_ROLE" (by simp [REQUIRED_OPTIONS])
  obtain ⟨rr, hrr⟩ :=
    requiredOk_getitem p hreq "PIPELINE_RESOURCE_ROLE" (by simp [REQUIRED_OPTIONS])
  obtain ⟨am, ham⟩ := requiredOk_getitem p hreq "EC2_AMI" (by simp [REQUIRED_OPTIONS])
  obtain ⟨kp, hkp⟩ := requiredOk_getitem p hreq "EC2_KEYPAIR" (by simp [REQUIRED_OPTIONS])
  obtain ⟨sn, hsn⟩ := requiredOk_getitem p hreq "EC2_SUBNET" (by simp [REQUIRED_OPTIONS])
  obtain ⟨sg, hsg⟩ :=
    requiredOk_getitem p hreq "EC2_SECURITY_GROUP" (by simp [REQUIRED_OPTIONS])
  refine ⟨?_, ?_, ?_, ?_, ?_, ?_⟩
  · unfold EasyPipeline.get_shell_command_activity
    exact ensure_found p id _ o h
  · rw [get_defaults_eq p lu ro rr hlu hro hrr, ensure_found p "Default" _ oD hD]
  · unfold EasyPipeline.get_ec2_resource
    rw [ham, hkp, hsn, hsg]
    show Except.ok (p._ensure_object id (ec2Object id am kp sn sg)) = Except.ok (p, id)
    rw [ensure_found p id _ o h]
  · unfold EasyPipeline.get_sns_alarm
    rw [hro]
    show Except.ok (p._ensure_object id (snsAlarmObject id ro)) = Except.ok (p, id)
    rw [ensure_found p id _ o h]
  · unfold EasyPipeline.get_sns_failure_handler
    rw [hro]
    show Except.ok (p._ensure_object id (snsFailureObject id ro p.name p.regionName))
      = Except.ok (p, id)
    rw [ensure_found p id _ o h]
  · have heq := get_schedule_eq p id lu ro rr hlu hro hrr
    rw [ensure_found p id _ o h, ensure_found p "Default" _ oD hD] at heq
    refine ⟨_, heq, ?_, ?_⟩
    · unfold EasyPipeline.updFirst
      simp only []
      rw [length_updateFirstList, length_updateFirstList]
    · have hst : ∀ x : PipelineObject,
          (x.setField "scheduleType" scheduleTypeCron).id = x.id := fun x => rfl
      have hsc : ∀ x : PipelineObject,
          (x.setField "schedule" (Value.ref id)).id = x.id := fun x => rfl
      by_cases hid : id = "Default"
      · subst hid
        have hu1 : ((p.updFirst "Default"
              (fun x => x.setField "scheduleType" scheduleTypeCron)))._get_object "Default"
            = some (o.setField "scheduleType" scheduleTypeCron) := by
          unfold EasyPipeline._get_object EasyPipeline.updFirst at *
          rw [find?_updateFirstList_self _ _ _ hst, h]
          rfl
        have hu2 : (((p.updFirst "Default"
              (fun x => x.setField "scheduleType" scheduleTypeCron))).updFirst "Default"
              (fun x => x.setField "schedule" (Value.ref "Default")))._get_object "Default"
            = some ((o.setField "scheduleType" scheduleTypeCron).setField "schedule"
                (Value.ref "Default")) := by
          unfold EasyPipeline._get_object EasyPipeline.updFirst at *
          rw [find?_updateFirstList_self _ _ _ hsc, hu1]
          rfl
        exact ⟨_, hu2, rfl, rfl⟩
      · have hu1 : ((p.updFirst "Default"
              (fun x => x.setField "scheduleType" scheduleTypeCron)).updFirst "Default"
              (fun x => x.setField "schedule" (Value.ref id)))._get_object id = some o := by
          unfold EasyPipeline._get_object EasyPipeline.updFirst at *
          rw [find?_updateFirstList_ne _ _ _ _ hsc hid, find?_updateFirstList_ne _ _ _ _ hst hid]
          exact h
        exact ⟨o, hu1, rfl, rfl⟩

/-- Claim C1 counterexample: in a pipeline whose id `A` is bound to a
ShellCommand Activity, `get_schedule "A"` does not fail with a
kind-mismatch error — it succeeds and returns the existing record of the
wrong kind. -/
theorem claim_C1_counterexample :
    sShellP._get_object "A" = some (shellObject "A")
    ∧ (shellObject "A").kind = Kind.shellCommandActivity
    ∧ Kind.shellCommandActivity ≠ Kind.schedule
    ∧ sShellP.get_schedule "A" = .ok (c1ResultP, "A")
    ∧ c1ResultP._get_object "A" = some (shellObject "A") :=
  ⟨rfl, rfl, by decide, rfl, rfl⟩

/-- Claim C1 witness: the amended theorem evaluated at the pipeline whose id
`A` holds a ShellCommand Activity record. -/
theorem claim_C1_witness :
    sShellP._get_object "A" = some (shellObject "A")
    ∧ sShellP.requiredOk = true
    ∧ sShellP.get_ec2_resource "A" = .ok (sShellP, "A")
    ∧ ∃ q, sShellP.get_schedule "A" = .ok (q, "A")
        ∧ ∃ o2, q._get_object "A" = some o2 ∧ o2.kind = (shellObject "A").kind := by
  have h := claim_C1 sShellP "A" (shellObject "A") (defaultObject "lu" "ro" "rr")
    (by rfl) (by rfl) (by rfl)
  refine ⟨by rfl, by rfl, h.2.2.1, ?_⟩
  obtain ⟨q, hq, _, o2, ho2, hk, _⟩ := h.2.2.2.2.2
  exact ⟨q, hq, o2, ho2, hk⟩

theorem easy_eq_of_objects {a b : EasyPipeline} (h1 : a.name = b.name)
    (h2 : a.uniqueId = b.uniqueId) (h3 : a.desc = b.desc)
    (h4 : a.regionName = b.regionName) (h5 : a.options = b.options)
    (h6 : a.objects = b.objects) : a = b := by
  cases a
  cases b
  simp only [EasyPipeline.mk.injEq]
  exact ⟨h1, h2, h3, h4, h5, h6⟩

theorem ensure_pair (p : EasyPipeline) (id : String) (obj : PipelineObject) :
    p._ensure_object id obj = ((p._ensure_object id obj).1, id) := by
  rcases hg : p._get_object id with _ | o
  · rw [ensure_not_found p id obj hg]
  · rw [ensure_found p id obj o hg]

theorem ensure_keeps_some (p : EasyPipeline) (id2 : String) (obj2 : PipelineObject)
    (a : String) (o : PipelineObject) (h : p._get_object a = some o) :
    (p._ensure_object id2 obj2).1._get_object a = some o := by
  rcases ensure_objects_cases p id2 obj2 with hc | ⟨_, hc⟩
  · unfold EasyPipeline._get_object at *
    rw [hc]
    exact h
  · unfold EasyPipeline._get_object at *
    rw [hc, List.find?_append, h]
    rfl

theorem updFirst_keeps_some (x : EasyPipeline) (D a : String)
    (f : PipelineObject → PipelineObject) (hpres : ∀ o, (f o).id = o.id)
    (o : PipelineObject) (h : x._get_object a = some o) :
    ∃ o2, (x.updFirst D f)._get_object a = some o2 := by
  by_cases haD : a = D
  · subst haD
    unfold EasyPipeline._get_object EasyPipeline.updFirst at *
    rw [find?_updateFirstList_self _ _ _ hpres, h]
    exact ⟨f o, rfl⟩
  · unfold EasyPipeline._get_object EasyPipeline.updFirst at *
    rw [find?_updateFirstList_ne _ _ _ _ hpres haD]
    exact ⟨o, h⟩

theorem schedFields_idem (S : String) (o : PipelineObject) :
    (((o.setField "scheduleType" scheduleTypeCron).setField "schedule"
        (Value.ref S)).setField "scheduleType" scheduleTypeCron).setField "schedule"
        (Value.ref S)
      = (o.setField "scheduleType" scheduleTypeCron).setField "schedule" (Value.ref S) := by
  unfold PipelineObject.setField
  simp only [PipelineObject.mk.injEq, true_and]
  have hA : dictSet (dictSet (dictSet o.fields "scheduleType" scheduleTypeCron)
      "schedule" (Value.ref S)) "scheduleType" scheduleTypeCron
      = dictSet (dictSet o.fields "scheduleType" scheduleTypeCron) "schedule" (Value.ref S) := by
    apply dictSet_self
    · have h1 := dictSet_any_self o.fields "scheduleType" scheduleTypeCron
      obtain ⟨x, hx, hpx⟩ := List.any_eq_true.mp h1
      have hx1 : x.1 = "scheduleType" := by simpa using hpx
      refine List.any_eq_true.mpr ⟨x, ?_, hpx⟩
      exact mem_dictSet_of_ne hx (by rw [hx1]; decide)
    · intro x hxm hx1
      have hx2 : x ∈ dictSet o.fields "scheduleType" scheduleTypeCron :=
        mem_dictSet_ne hxm (by rw [hx1]; decide)
      exact mem_dictSet_value hx2 hx1
  rw [hA]
  apply dictSet_self
  · exact dictSet_any_self _ _ _
  · exact fun x hxm hx1 => mem_dictSet_value hxm hx1

theorem sched_upd_idem (p2 : EasyPipeline) (S : String) :
    ((((p2.updFirst "Default"
        (fun o => o.setField "scheduleType" scheduleTypeCron)).updFirst "Default"
        (fun o => o.setField "schedule" (Value.ref S))).updFirst "Default"
        (fun o => o.setField "scheduleType" scheduleTypeCron)).updFirst "Default"
        (fun o => o.setField "schedule" (Value.ref S)))
      = (p2.updFirst "Default"
          (fun o => o.setField "scheduleType" scheduleTypeCron)).updFirst "Default"
          (fun o => o.setField "schedule" (Value.ref S)) := by
  refine easy_eq_of_objects rfl rfl rfl rfl rfl ?_
  show updateFirstList (updateFirstList (updateFirstList (updateFirstList p2.objects
      "Default" (fun o => o.setField "scheduleType" scheduleTypeCron)) "Default"
      (fun o => o.setField "schedule" (Value.ref S))) "Default"
      (fun o => o.setField "scheduleType" scheduleTypeCron)) "Default"
      (fun o => o.setField "schedule" (Value.ref S))
    = updateFirstList (updateFirstList p2.objects "Default"
        (fun o => o.setField "scheduleType" scheduleTypeCron)) "Default"
        (fun o => o.setField "schedule" (Value.ref S))
  calc
    updateFirstList (updateFirstList (updateFirstList (updateFirstList p2.objects
        "Default" (fun o => o.setField "scheduleType" scheduleTypeCron)) "Default"
        (fun o => o.setField "schedule" (Value.ref S))) "Default"
        (fun o => o.setField "scheduleType" scheduleTypeCron)) "Default"
        (fun o => o.setField "schedule" (Value.ref S))
      = updateFirstList (updateFirstList (updateFirstList p2.objects
          "Default" (fun o => o.setField "scheduleType" scheduleTypeCron)) "Default"
          (fun o => o.setField "schedule" (Value.ref S))) "Default"
          (fun o => (o.setField "scheduleType" scheduleTypeCron).setField "schedule"
            (Value.ref S)) :=
        updateFirstList_comp _ "Default"
          (fun o => o.setField "scheduleType" scheduleTypeCron)
          (fun o => o.setField "schedule" (Value.ref S)) (fun o => rfl)
    _ = updateFirstList (updateFirstList p2.objects "Default"
          (fun o => (o.setField "scheduleType" scheduleTypeCron).setField "schedule"
            (Value.ref S))) "Default"
          (fun o => (o.setField "scheduleType" scheduleTypeCron).setField "schedule"
            (Value.ref S)) := by
        rw [updateFirstList_comp p2.objects "Default"
          (fun o => o.setField "scheduleType" scheduleTypeCron)
          (fun o => o.setField "schedule" (Value.ref S)) (fun o => rfl)]
    _ = updateFirstList p2.objects "Default"
          (fun o => ((((o.setField "scheduleType" scheduleTypeCron).setField "schedule"
            (Value.ref S)).setField "scheduleType" scheduleTypeCron).setField "schedule"
            (Value.ref S))) :=
        updateFirstList_comp _ "Default" _ _ (fun o => rfl)
    _ = updateFirstList p2.objects "Default"
          (fun o => (o.setField "scheduleType" scheduleTypeCron).setField "schedule"
            (Value.ref S)) :=
        updateFirstList_congr _ _ _ _ (fun o => schedFields_idem S o)
    _ = updateFirstList (updateFirstList p2.objects "Default"
          (fun o => o.setField "scheduleType" scheduleTypeCron)) "Default"
          (fun o => o.setField "schedule" (Value.ref S)) :=
        (updateFirstList_comp _ "Default"
          (fun o => o.setField "scheduleType" scheduleTypeCron)
          (fun o => o.setField "schedule" (Value.ref S)) (fun o => rfl)).symm

theorem get_schedule_found (q : EasyPipeline) (S lu ro rr : String)
    (h1 : q.options.getitem "LOG_URI" = .ok lu)
    (h2 : q.options.getitem "PIPELINE_ROLE" = .ok ro)
    (h3 : q.options.getitem "PIPELINE_RESOURCE_ROLE" = .ok rr)
    (x : PipelineObject) (hx : q._get_object S = some x)
    (y : PipelineObject) (hy : q._get_object "Default" = some y) :
    q.get_schedule S = .ok ((q.updFirst "Default"
        (fun o => o.setField "scheduleType" scheduleTypeCron)).updFirst "Default"
        (fun o => o.setField "schedule" (Value.ref S)), S) := by
  have heq := get_schedule_eq q S lu ro rr h1 h2 h3
  rw [ensure_found q S _ x hx] at heq
  dsimp only at heq
  rw [ensure_found q "Default" _ y hy] at heq
  dsimp only at heq
  exact heq

/-- Claim C8: calling any get-or-create accessor twice with the same id
returns the same record reference both times, and the second call leaves the
pipeline state exactly as the first call left it — no second record is
added, and no field of the existing record is re-initialized. -/
theorem claim_C8 (p : EasyPipeline) (id : String) (hreq : p.requiredOk = true) :
    (∃ q, p.get_shell_command_activity id = (q, id)
        ∧ q.get_shell_command_activity id = (q, id))
    ∧ (∃ q, p.get_defaults = .ok (q, "Default") ∧ q.get_defaults = .ok (q, "Default"))
    ∧ (∃ q, p.get_ec2_resource id = .ok (q, id) ∧ q.get_ec2_resource id = .ok (q, id))
    ∧ (∃ q, p.get_sns_alarm id = .ok (q, id) ∧ q.get_sns_alarm id = .ok (q, id))
    ∧ (∃ q, p.get_sns_failure_handler id = .ok (q, id)
        ∧ q.get_sns_failure_handler id = .ok (q, id))
    ∧ (∃ q, p.get_schedule id = .ok (q, id) ∧ q.get_schedule id = .ok (q, id)) := by
  obtain ⟨lu, hlu⟩ := requiredOk_getitem p hreq "LOG_URI" (by simp [REQUIRED_OPTIONS])
  obtain ⟨ro, hro⟩ := requiredOk_getitem p hreq "PIPELINE_ROLE" (by simp [REQUIRED_OPTIONS])
  obtain ⟨rr, hrr⟩ :=
    requiredOk_getitem p hreq "PIPELINE_RESOURCE_ROLE" (by simp [REQUIRED_OPTIONS])
  obtain ⟨am, ham⟩ := requiredOk_getitem p hreq "EC2_AMI" (by simp [REQUIRED_OPTIONS])
  obtain ⟨kp, hkp⟩ := requiredOk_getitem p hreq "EC2_KEYPAIR" (by simp [REQUIRED_OPTIONS])
  obtain ⟨sn, hsn⟩ := requiredOk_getitem p hreq "EC2_SUBNET" (by simp [REQUIRED_OPTIONS])
  obtain ⟨sg, hsg⟩ :=
    requiredOk_getitem p hreq "EC2_SECURITY_GROUP" (by simp [REQUIRED_OPTIONS])
  refine ⟨?_, ?_, ?_, ?_, ?_, ?_⟩
  · obtain ⟨x, hx⟩ := ensure_get_object p id (shellObject id) rfl
    refine ⟨(p._ensure_object id (shellObject id)).1, ensure_pair p id _, ?_⟩
    unfold EasyPipeline.get_shell_command_activity
    exact ensure_found _ id _ x hx
  · obtain ⟨x, hx⟩ := ensure_get_object p "Default" (defaultObject lu ro rr) rfl
    have hqo := ensure_options p "Default" (defaultObject lu ro rr)
    refine ⟨(p._ensure_object "Default" (defaultObject lu ro rr)).1, ?_, ?_⟩
    · rw [get_defaults_eq p lu ro rr hlu hro hrr, ensure_pair p "Default" _]
    · rw [get_defaults_eq _ lu ro rr (by rw [hqo]; exact hlu) (by rw [hqo]; exact hro)
        (by rw [hqo]; exact hrr)]
      rw [ensure_found _ "Default" _ x hx]
  · obtain ⟨x, hx⟩ := ensure_get_object p id (ec2Object id am kp sn sg) rfl
    have hqo := ensure_options p id (ec2Object id am kp sn sg)
    refine ⟨(p._ensure_object id (ec2Object id am kp sn sg)).1, ?_, ?_⟩
    · unfold EasyPipeline.get_ec2_resource
      rw [ham, hkp, hsn, hsg]
      show Except.ok (p._ensure_object id (ec2Object id am kp sn sg)) = _
      rw [ensure_pair p id _]
    · unfold EasyPipeline.get_ec2_resource
      rw [hqo, ham, hkp, hsn, hsg]
      show Except.ok ((p._ensure_object id (ec2Object id am kp sn sg)).1._ensure_object
        id (ec2Object id am kp sn sg)) = _
      rw [ensure_found _ id _ x hx]
  · obtain ⟨x, hx⟩ := ensure_get_object p id (snsAlarmObject id ro) rfl
    have hqo := ensure_options p id (snsAlarmObject id ro)
    refine ⟨(p._ensure_object id (snsAlarmObject id ro)).1, ?_, ?_⟩
    · unfold EasyPipeline.get_sns_alarm
      rw [hro]
      show Except.ok (p._ensure_object id (snsAlarmObject id ro)) = _
      rw [ensure_pair p id _]
    · unfold EasyPipeline.get_sns_alarm
      rw [hqo, hro]
      show Except.ok ((p._ensure_object id (snsAlarmObject id ro)).1._ensure_object
        id (snsAlarmObject id ro)) = _
      rw [ensure_found _ id _ x hx]
  · obtain ⟨x, hx⟩ :=
      ensure_get_object p id (snsFailureObject id ro p.name p.regionName) rfl
    have hqo := ensure_options p id (snsFailureObject id ro p.name p.regionName)
    have hqn := ensure_name p id (snsFailureObject id ro p.name p.regionName)
    have hqr := ensure_region p id (snsFailureObject id ro p.name p.regionName)
    refine ⟨(p._ensure_object id (snsFailureObject id ro p.name p.regionName)).1, ?_, ?_⟩
    · unfold EasyPipeline.get_sns_failure_handler
      rw [hro]
      show Except.ok (p._ensure_object id (snsFailureObject id ro p.name p.regionName)) = _
      rw [ensure_pair p id _]
    · unfold EasyPipeline.get_sns_failure_handler
      rw [hqo, hro, hqn, hqr]
      show Except.ok ((p._ensure_object id (snsFailureObject id ro p.name p.regionName)
        ).1._ensure_object id (snsFailureObject id ro p.name p.regionName)) = _
      rw [ensure_found _ id _ x hx]
  · have heq1 := get_schedule_eq p id lu ro rr hlu hro hrr
    rw [ensure_ref, ensure_ref] at heq1
    obtain ⟨s, hs⟩ := ensure_get_object p id (scheduleObject id) rfl
    have hs2 := ensure_keeps_some (p._ensure_object id (scheduleObject id)).1
      "Default" (defaultObject lu ro rr) id s hs
    obtain ⟨s3, hs3⟩ := updFirst_keeps_some _ "Default" id
      (fun o => o.setField "scheduleType" scheduleTypeCron) (fun o => rfl) s hs2
    obtain ⟨s4, hs4⟩ := updFirst_keeps_some _ "Default" id
      (fun o => o.setField "schedule" (Value.ref id)) (fun o => rfl) s3 hs3
    obtain ⟨d0, hd0⟩ := ensure_get_object (p._ensure_object id (scheduleObject id)).1
      "Default" (defaultObject lu ro rr) rfl
    obtain ⟨d1, hd1⟩ := updFirst_keeps_some _ "Default" "Default"
      (fun o => o.setField "scheduleType" scheduleTypeCron) (fun o => rfl) d0 hd0
    obtain ⟨d2, hd2⟩ := updFirst_keeps_some _ "Default" "Default"
      (fun o => o.setField "schedule" (Value.ref id)) (fun o => rfl) d1 hd1
    have hqo : ((((p._ensure_object id (scheduleObject id)).1._ensure_object "Default"
        (defaultObject lu ro rr)).1.updFirst "Default"
        (fun o => o.setField "scheduleType" scheduleTypeCron)).updFirst "Default"
        (fun o => o.setField "schedule" (Value.ref id))).options = p.options :=
      (ensure_options _ _ _).trans (ensure_options _ _ _)
    have heq2 := get_schedule_found _ id lu ro rr
      (by rw [hqo]; exact hlu) (by rw [hqo]; exact hro) (by rw [hqo]; exact hrr)
      s4 hs4 d2 hd2
    rw [sched_upd_idem] at heq2
    exact ⟨_, heq1, heq2⟩

/-- Claim C8 witness: the constructed pipeline `wP` with id `A`. -/
theorem claim_C8_witness :
    wP.requiredOk = true
    ∧ (∃ q, wP.get_shell_command_activity "A" = (q, "A")
        ∧ q.get_shell_command_activity "A" = (q, "A"))
    ∧ (∃ q, wP.get_defaults = .ok (q, "Default") ∧ q.get_defaults = .ok (q, "Default"))
    ∧ (∃ q, wP.get_schedule "A" = .ok (q, "A") ∧ q.get_schedule "A" = .ok (q, "A")) := by
  have h := claim_C8 wP "A" (by rfl)
  exact ⟨by rfl, h.1, h.2.1, h.2.2.2.2.2⟩

end Pline
